import Mathlib

/-!
Shallow embedding of the tasks slice of a Django CRM application.

Source files embedded:
  * tasks/models/task.py      (model `Task`: clean, save, check_and_deacte_main_task,
                               copy_files_to_maintask)
  * tasks/forms.py            (TaskBaseForm: clean_name, clean, clean_next_step_date)
  * tasks/site/taskadmin.py   (TaskAdmin: get_queryset, save_related, coloured_name)

Modelling conventions:
  * dates are natural numbers (days); `get_today` becomes an explicit `today` argument;
  * a nullable column/field is an `Option`; `none` is SQL NULL or Python `None`;
  * a foreign key is the id of the referenced row; the related `TaskStage` object is
    inlined in the task, and the stage table is a list in the database, since the code
    also queries the stage table globally;
  * querysets become list filters over an explicit database value;
  * a raised `ValidationError(\x7bfield: msg\x7d)` becomes a returned `VError` value;
    a method that can raise returns `Option VError` or `Except VError _`;
  * Python truthiness is made explicit where the code relies on it: an integer id is
    truthy iff nonzero, a related object iff present, a queryset iff non-empty, a
    `timedelta` iff nonzero.
-/

namespace CRM

/-- Modelled from the spec: the `TaskStage` model is outside the inspected slice; the
spec glossary describes a stage as "a named lifecycle state for a task ... carrying
boolean flags (`active`, `done`, `default`, `in_progress`) that drive conditional
logic". Only the four flags are used by the embedded code. -/
structure TaskStage where
  active : Bool
  done : Bool
  default : Bool
  in_progress : Bool
  deriving DecidableEq, Repr

/-- A `TheFile` row (app `common`): a stored file attached to a task via
`content_object`. Only the underlying file (identified by its path/name) and the
owning task are relevant to the embedded code. -/
structure TheFile where
  file : String
  task_id : Nat
  deriving DecidableEq, Repr

/-- A `Task` row.  `task`, `project`, `stage`, `hide_main_task` and `lead_time` are
declared in tasks/models/task.py; the remaining fields (`name`, `next_step`,
`next_step_date`, `due_date`, `closing_date`, `active`, `responsible`, workflow log)
are inherited from `TaskBase`, which is outside the inspected slice, and are modelled
from their uses in the embedded code and the spec glossary.  `lead_time` is a
duration in seconds, `none` for NULL.  `responsible` is the many-to-many set of
responsible user ids. -/
structure Task where
  id : Option Nat
  task : Option Nat
  stage : Option TaskStage
  name : String
  next_step : String
  next_step_date : Option Nat
  due_date : Option Nat
  closing_date : Option Nat
  active : Bool
  lead_time : Option Int
  hide_main_task : Bool
  responsible : List Nat
  workflow : List String
  deriving DecidableEq, Repr

/-- The database state visible to the embedded code: the task table, the stage table
and the file table. -/
structure DB where
  tasks : List Task
  stages : List TaskStage
  files : List TheFile
  deriving DecidableEq, Repr

/-- A raised `ValidationError(\x7bfield: msg\x7d)`. -/
structure VError where
  field : String
  msg : String
  deriving DecidableEq, Repr

/-- Message of the ValidationError raised by `Task.clean`. -/
def cannotCloseMsg : String := "The task cannot be closed because there is an active subtask."

/-- Message of the past-date ValidationErrors raised in tasks/forms.py. -/
def pastDateMsg : String := "Date should not be in the past."

/-- `ONE_RESPONSIBLE_MSG` from tasks/forms.py line 10. -/
def ONE_RESPONSIBLE_MSG : String := "This is a sub-task, so specify only one responsible."

/-- Message of the ValidationError raised by `TaskBaseForm.clean_name`. -/
def noNameMsg : String := "Please specify a name"

/-- Python truthiness of an integer-or-None id: `None` and `0` are falsy. -/
def optIdTruthy : Option Nat → Bool
  | none => false
  | some n => n != 0

/-- Python truthiness of a `timedelta`-or-None: `None` and the zero duration are falsy. -/
def durationFalsy : Option Int → Bool
  | none => true
  | some d => d == 0

/-- `Task.objects.get`-like lookup by primary key (first row whose id matches). -/
def getTask (db : DB) (pk : Nat) : Option Task :=
  db.tasks.find? (fun t => t.id == some pk)

/-- Persisting an already-saved row: the row with the same id is replaced. -/
def DB.saveRow (db : DB) (t : Task) : DB :=
  { db with tasks := db.tasks.map (fun u => if u.id == t.id then t else u) }

/-- The join condition `stage__active=True` on a task row: the stage foreign key is
non-null and the referenced stage has `active=True`. -/
def subtaskStageActive (t : Task) : Bool :=
  match t.stage with
  | some st => st.active
  | none => false

/-- tasks/models/task.py, `Task.clean` (lines 60-79): prevent closing a task that has
an active subtask.  Fires only for a saved (truthy id) task with no parent task and a
stage; when that stage is inactive and some subtask has an active stage it raises a
ValidationError on the `stage` field.  `super().clean()` (TaskBase, outside the
slice) raises no error on the `stage` field and is modelled as a no-op. -/
def Task.clean (db : DB) (self : Task) : Option VError :=
  if optIdTruthy self.id && self.task.isNone && self.stage.isSome then
    match self.stage with
    | some st =>
      if !st.active then
        if db.tasks.any (fun t => t.task == self.id && subtaskStageActive t) then
          some ⟨"stage", cannotCloseMsg⟩
        else
          none
      else
        none
    | none => none
  else
    none

/-- tasks/models/task.py, `Task.save` (lines 82-91): copy the stage's `active` flag
onto the task when a stage is set, and replace a falsy (`None` or zero) `lead_time`
with `timedelta(minutes=0)`, i.e. the zero duration.  `super().save()` persists the
row; persistence is modelled separately by `DB.saveRow`.  First statement: `if
stage: self.active = stage.active`. -/
def Task.saveActiveStep (self : Task) : Task :=
  match self.stage with
  | some st => { self with active := st.active }
  | none => self

/-- Second statement of `Task.save`: `if not self.lead_time: self.lead_time =
timedelta(minutes=0)`. -/
def Task.saveLeadStep (self : Task) : Task :=
  if durationFalsy self.lead_time then { self with lead_time := some 0 } else self

/-- The two field assignments of `Task.save`, in source order. -/
def Task.save (self : Task) : Task :=
  Task.saveLeadStep (Task.saveActiveStep self)

/-- Modelled from the spec: `TaskBase.add_to_workflow` (TaskBase is outside the
inspected slice) records a message in the task's workflow log. -/
def Task.add_to_workflow (self : Task) (msg : String) : Task :=
  { self with workflow := self.workflow ++ [msg] }

/-- The subtasks of the main task with id `mid`: `Task.objects.filter(task=main_task)`. -/
def subtasksOf (db : DB) (mid : Nat) : List Task :=
  db.tasks.filter (fun t => t.task == some mid)

/-- The filter `subtasks.filter(stage__done=True, active=False)` on one row. -/
def doneSubtaskFilter (t : Task) : Bool :=
  (match t.stage with
   | some st => st.done
   | none => false) && !t.active

/-- `USER_MODEL.objects.filter(tasks_task_responsible_related__in=done_subtasks)`:
the users responsible for at least one done subtask of the main task `mid`
(as a list with possible repetitions; it is only ever compared as a set). -/
def done_responsible (db : DB) (mid : Nat) : List Nat :=
  (((subtasksOf db mid).filter doneSubtaskFilter).map Task.responsible).flatten

/-- Python `set(a) == set(b)` on user-id lists. -/
def sameSet (a b : List Nat) : Bool :=
  a.all (fun x => b.contains x) && b.all (fun x => a.contains x)

/-- tasks/models/task.py, `Task.check_and_deacte_main_task` (lines 95-127):
deactivate the main task when all subtasks are completed.  Returns the updated
database (unchanged when any guard fails). -/
def Task.check_and_deacte_main_task (db : DB) (today : Nat) (self : Task) : DB :=
  match self.task with
  | none => db
  | some mid =>
    match getTask db mid with
    | none => db
    | some main_task =>
      match main_task.stage with
      | none => db
      | some mstage =>
        if mstage.default || mstage.in_progress then
          let subtasks := subtasksOf db mid
          if !(subtasks.any (fun t => t.active)) then
            if sameSet main_task.responsible (done_responsible db mid) then
              match (db.stages.filter (fun s => s.done)).head? with
              | some done_stage =>
                let mt1 := { main_task with stage := some done_stage }
                let mt2 := mt1.add_to_workflow "The main task is closed automatically."
                let mt3 := { mt2 with
                              next_step := "Done",
                              next_step_date := some today,
                              closing_date := some today }
                db.saveRow mt3.save
              | none => db
            else db
          else db
        else db

/-- The files attached to the task with id `pk`: `task.files.all()`. -/
def task_files (db : DB) (pk : Nat) : List TheFile :=
  db.files.filter (fun f => f.task_id == pk)

/-- tasks/models/task.py, `Task.copy_files_to_maintask` (lines 129-145): copy to the
main task those files of the subtask whose underlying file is not already among the
main task's files.  A task without a parent task changes nothing. -/
def Task.copy_files_to_maintask (db : DB) (self : Task) : DB :=
  match self.task with
  | none => db
  | some mid =>
    let maintask_files := (task_files db mid).map (fun f => f.file)
    let self_files := db.files.filter (fun f => some f.task_id == self.id)
    let uniq_files := self_files.filter (fun f => !(maintask_files.contains f.file))
    { db with files := db.files ++ uniq_files.map (fun f => ⟨f.file, mid⟩) }

/-- tasks/site/taskadmin.py, `TaskAdmin.save_related` (lines 192-199), first step:
when the saved object is a sub-task and both its stage and the main task's stage are
set, and the main stage has `default=True` while the object's stage has
`in_progress=True`, the main task's stage is set to the object's stage and the main
task is saved. -/
def save_related_cascade (db : DB) (obj : Task) : DB :=
  match obj.task with
  | none => db
  | some mid =>
    match getTask db mid with
    | none => db
    | some main_task =>
      match main_task.stage, obj.stage with
      | some main_stage, some obj_stage =>
        if main_stage.default && obj_stage.in_progress then
          db.saveRow (Task.save { main_task with stage := some obj_stage })
        else db
      | _, _ => db

/-- tasks/site/taskadmin.py, `TaskAdmin.save_related` (lines 187-205): the stage
cascade, then, when the object is not active, copying files to the main task and
checking whether the main task auto-closes.  `super().save_related` (framework) and
the user notification are outside the embedded state. -/
def TaskAdmin.save_related (db : DB) (today : Nat) (obj : Task) : DB :=
  let db1 := save_related_cascade db obj
  if !obj.active then
    Task.check_and_deacte_main_task (Task.copy_files_to_maintask db1 obj) today obj
  else db1

/-- A row of the changelist queryset produced by `TaskAdmin.get_queryset`: the task
together with its two annotations. -/
structure AnnotatedTask where
  task : Task
  step_date : Option Nat
  parent_id : Option Nat
  deriving DecidableEq, Repr

/-- SQL `COALESCE` on two nullable integers. -/
def coalesce (a b : Option Nat) : Option Nat := a <|> b

/-- SQL `LEAST` on two nullable integers, ignoring NULLs (the least non-null value,
NULL when both are NULL). -/
def least2 (a b : Option Nat) : Option Nat :=
  match a, b with
  | some x, some y => some (min x y)
  | some x, none => some x
  | none, some y => some y
  | none, none => none

/-- The joined column `task__next_step_date`: NULL when the task has no parent or the
parent's `next_step_date` is NULL. -/
def parentNextStepDate (db : DB) (t : Task) : Option Nat :=
  t.task.bind (fun mid => (getTask db mid).bind (fun m => m.next_step_date))

/-- The two annotations of `TaskAdmin.get_queryset` (taskadmin.py lines 155-161):
`step_date = Least(Coalesce(task__next_step_date, next_step_date), next_step_date)`
and `parent_id = Coalesce(task_id, id)`. -/
def annotate (db : DB) (t : Task) : AnnotatedTask :=
  { task := t
    step_date := least2 (coalesce (parentNextStepDate db t) t.next_step_date) t.next_step_date
    parent_id := coalesce t.task t.id }

/-- Ascending SQL order on a nullable integer column, NULLs first. -/
def optLe (a b : Option Nat) : Bool :=
  match a, b with
  | none, _ => true
  | some _, none => false
  | some x, some y => decide (x ≤ y)

/-- Strict version of `optLe` (by totality, `optLt a b = !optLe b a`). -/
def optLt (a b : Option Nat) : Bool := !(optLe b a)

/-- Lexicographic order on the sort key `(parent_id, step_date, id)` of
`order_by("parent_id", "step_date", "id")`. -/
def keyLe (a b : AnnotatedTask) : Bool :=
  optLt a.parent_id b.parent_id ||
    (a.parent_id == b.parent_id &&
      (optLt a.step_date b.step_date ||
        (a.step_date == b.step_date && optLe a.task.id b.task.id)))

/-- tasks/site/taskadmin.py, `TaskAdmin.get_queryset` (lines 153-162): annotate every
task with `step_date` and `parent_id` and order by `(parent_id, step_date, id)`.
The base queryset (`super().get_queryset`) is the whole task table. -/
def TaskAdmin.get_queryset (db : DB) : List AnnotatedTask :=
  (db.tasks.map (annotate db)).mergeSort keyLe

/-- tasks/site/taskadmin.py, `TaskAdmin.coloured_name` (lines 214-220): a main task's
name in a green span, a sub-task's name in a span indented by a 20px left margin. -/
def TaskAdmin.coloured_name (obj : Task) : String :=
  match obj.task with
  | none => "<span style=\"color:var(--green-fg)\">" ++ obj.name ++ "</span>"
  | some _ => "<span style=\x27margin-left:20px\x27>" ++ obj.name ++ "</span>"

/-- The rendering `coloured_name` produces for a main task. -/
def greenSpan (name : String) : String :=
  "<span style=\"color:var(--green-fg)\">" ++ name ++ "</span>"

/-- The rendering `coloured_name` produces for a sub-task. -/
def marginSpan (name : String) : String :=
  "<span style=\x27margin-left:20px\x27>" ++ name ++ "</span>"

/-- The data of a bound `TaskBaseForm` (tasks/forms.py): the cleaned field values the
embedded validation logic reads, plus `changed_data`, the names of the fields whose
submitted value differs from the initial one.  A cleaned foreign key (`task`) is a
related object, truthy iff present; cleaned `responsible` is the selected user set,
truthy iff non-empty; a missing entry of `cleaned_data` is `none`. -/
structure TaskForm where
  name : Option String
  responsible : List Nat
  task : Option Nat
  due_date : Option Nat
  next_step_date : Option Nat
  remind_me : Bool
  changed_data : List String
  deriving DecidableEq, Repr

/-- tasks/forms.py, `clean_next_step_date` (lines 115-126): when `next_step_date` was
changed, or `remind_me` was changed and is set, a non-empty `next_step_date` earlier
than today raises the past-date error on `next_step_date`. -/
def clean_next_step_date (today : Nat) (form : TaskForm) : Option VError :=
  if form.changed_data.contains "next_step_date" ||
      (form.changed_data.contains "remind_me" && form.remind_me) then
    match form.next_step_date with
    | some d => if d < today then some ⟨"next_step_date", pastDateMsg⟩ else none
    | none => none
  else none

/-- tasks/forms.py, `TaskBaseForm.clean` (lines 43-49), the due-date step: when
`due_date` was changed and is non-empty and earlier than today, the past-date error
is raised on `due_date`. -/
def due_date_check (today : Nat) (form : TaskForm) : Option VError :=
  if form.changed_data.contains "due_date" then
    match form.due_date with
    | some d => if d < today then some ⟨"due_date", pastDateMsg⟩ else none
    | none => none
  else none

/-- tasks/forms.py, `TaskBaseForm.clean` (lines 37-62): run `clean_next_step_date`,
then the due-date check, then the sub-task single-responsible check; the first raised
ValidationError aborts the method, and with no error the cleaned data is returned. -/
def TaskBaseForm.clean (today : Nat) (form : TaskForm) : Except VError TaskForm :=
  match clean_next_step_date today form with
  | some e => .error e
  | none =>
    match due_date_check today form with
    | some e => .error e
    | none =>
      if form.changed_data.contains "responsible" && form.task.isSome &&
          !form.responsible.isEmpty then
        if form.responsible.length > 1 then
          .error ⟨"responsible", ONE_RESPONSIBLE_MSG⟩
        else .ok form
      else .ok form

/-- tasks/forms.py, `TaskBaseForm.clean_name` (lines 25-29): a missing or empty name,
or one equal to `settings.NO_NAME_STR` (a deployment setting, passed as `noNameStr`),
raises "Please specify a name"; any other name is returned unchanged. -/
def TaskBaseForm.clean_name (noNameStr : String) (form : TaskForm) : Except VError String :=
  match form.name with
  | none => .error ⟨"name", noNameMsg⟩
  | some n =>
    if n == "" || n == noNameStr then .error ⟨"name", noNameMsg⟩
    else .ok n

/-! ### Helper lemmas -/

theorem saveActiveStep_fields (t : Task) :
    (Task.saveActiveStep t).id = t.id ∧ (Task.saveActiveStep t).task = t.task ∧
    (Task.saveActiveStep t).stage = t.stage ∧ (Task.saveActiveStep t).name = t.name ∧
    (Task.saveActiveStep t).next_step = t.next_step ∧
    (Task.saveActiveStep t).next_step_date = t.next_step_date ∧
    (Task.saveActiveStep t).due_date = t.due_date ∧
    (Task.saveActiveStep t).closing_date = t.closing_date ∧
    (Task.saveActiveStep t).lead_time = t.lead_time ∧
    (Task.saveActiveStep t).responsible = t.responsible := by
  unfold Task.saveActiveStep
  cases h : t.stage <;> simp [h]

theorem saveLeadStep_fields (t : Task) :
    (Task.saveLeadStep t).id = t.id ∧ (Task.saveLeadStep t).task = t.task ∧
    (Task.saveLeadStep t).stage = t.stage ∧ (Task.saveLeadStep t).name = t.name ∧
    (Task.saveLeadStep t).next_step = t.next_step ∧
    (Task.saveLeadStep t).next_step_date = t.next_step_date ∧
    (Task.saveLeadStep t).due_date = t.due_date ∧
    (Task.saveLeadStep t).closing_date = t.closing_date ∧
    (Task.saveLeadStep t).active = t.active := by
  unfold Task.saveLeadStep
  split <;> simp

theorem save_fields (t : Task) :
    (Task.save t).id = t.id ∧ (Task.save t).task = t.task ∧ (Task.save t).stage = t.stage ∧
    (Task.save t).name = t.name ∧ (Task.save t).next_step = t.next_step ∧
    (Task.save t).next_step_date = t.next_step_date ∧ (Task.save t).due_date = t.due_date ∧
    (Task.save t).closing_date = t.closing_date ∧ (Task.save t).responsible = t.responsible := by
  have h1 := saveActiveStep_fields t
  have h2 := saveLeadStep_fields (Task.saveActiveStep t)
  have h3 : (Task.saveLeadStep (Task.saveActiveStep t)).responsible =
      (Task.saveActiveStep t).responsible := by
    unfold Task.saveLeadStep; split <;> simp
  unfold Task.save
  obtain ⟨a1, a2, a3, a4, a5, a6, a7, a8, a9, a10⟩ := h1
  obtain ⟨b1, b2, b3, b4, b5, b6, b7, b8, b9⟩ := h2
  exact ⟨b1.trans a1, b2.trans a2, b3.trans a3, b4.trans a4, b5.trans a5, b6.trans a6,
    b7.trans a7, b8.trans a8, h3.trans a10⟩

theorem save_id (t : Task) : (Task.save t).id = t.id := (save_fields t).1

theorem save_stage (t : Task) : (Task.save t).stage = t.stage := (save_fields t).2.2.1

theorem save_next_step (t : Task) : (Task.save t).next_step = t.next_step :=
  (save_fields t).2.2.2.2.1

theorem save_next_step_date (t : Task) : (Task.save t).next_step_date = t.next_step_date :=
  (save_fields t).2.2.2.2.2.1

theorem save_closing_date (t : Task) : (Task.save t).closing_date = t.closing_date :=
  (save_fields t).2.2.2.2.2.2.2.1

theorem getTask_id {db : DB} {mid : Nat} {m : Task} (h : getTask db mid = some m) :
    m.id = some mid := by
  have := List.find?_some h
  simpa using this

theorem find_saveRow (l : List Task) (t : Task) (mid : Nat) (ht : t.id = some mid) {m : Task}
    (h : l.find? (fun u => u.id == some mid) = some m) :
    (l.map (fun u => if u.id == t.id then t else u)).find? (fun u => u.id == some mid) = some t := by
  induction l with
  | nil => simp at h
  | cons a l ih =>
    by_cases ha : a.id = some mid
    · have hif : (if a.id == t.id then t else a) = t := by
        rw [ha, ht]; simp
      simp only [List.map_cons, hif]
      rw [List.find?_cons_of_pos]
      simp [ht]
    · rw [List.find?_cons_of_neg] at h
      · have hif : (if a.id == t.id then t else a) = a := by
          rw [ht]; simp [ha]
        simp only [List.map_cons, hif]
        rw [List.find?_cons_of_neg]
        · exact ih h
        · simp [ha]
      · simp [ha]

theorem getTask_saveRow {db : DB} {mid : Nat} {main : Task} (t : Task)
    (hget : getTask db mid = some main) (ht : t.id = some mid) :
    getTask (db.saveRow t) mid = some t := by
  unfold getTask DB.saveRow at *
  exact find_saveRow db.tasks t mid ht hget

theorem greenSpan_ne_marginSpan (s : String) : greenSpan s ≠ marginSpan s := by
  intro h
  have hlen := congrArg String.length h
  rw [greenSpan, marginSpan] at hlen
  simp only [String.length_append] at hlen
  have h1 : ("<span style=\"color:var(--green-fg)\">" : String).length = 36 := by decide
  have h2 : ("<span style=\x27margin-left:20px\x27>" : String).length = 31 := by decide
  rw [h1, h2] at hlen
  omega

/-! ### Example values used by the closed witness and counterexample theorems -/

/-- A baseline task row for concrete examples. -/
def task0 : Task :=
  ⟨none, none, none, "", "", none, none, none, true, some 0, false, [], []⟩

/-- A baseline form value for concrete examples. -/
def form0 : TaskForm := ⟨some "n", [1], none, none, none, false, []⟩

/-- C7: `TaskAdmin.coloured_name` renders a main task (no parent task) as its name in
a span styled with the green foreground colour variable, and a sub-task as its name
in a span with a 20px left margin; the two renderings are distinct, so exactly one of
them is produced for every task. -/
theorem C7_coloured_name (obj : Task) :
    (obj.task = none → TaskAdmin.coloured_name obj = greenSpan obj.name) ∧
    (∀ mid, obj.task = some mid → TaskAdmin.coloured_name obj = marginSpan obj.name) ∧
    Xor' (TaskAdmin.coloured_name obj = greenSpan obj.name)
      (TaskAdmin.coloured_name obj = marginSpan obj.name) := by
  cases h : obj.task with
  | none =>
    have hg : TaskAdmin.coloured_name obj = greenSpan obj.name := by
      unfold TaskAdmin.coloured_name; rw [h]; rfl
    refine ⟨fun _ => hg, ?_, ?_⟩
    · intro mid hmid
      simp [h] at hmid
    · exact Or.inl ⟨hg, by rw [hg]; exact greenSpan_ne_marginSpan obj.name⟩
  | some mid =>
    have hm : TaskAdmin.coloured_name obj = marginSpan obj.name := by
      unfold TaskAdmin.coloured_name; rw [h]; rfl
    refine ⟨?_, fun _ _ => hm, ?_⟩
    · intro hn
      simp [h] at hn
    · exact Or.inr ⟨hm, by rw [hm]; exact fun hc => greenSpan_ne_marginSpan obj.name hc.symm⟩

/-- C7 witness: the theorem applied to a concrete main task and a concrete sub-task. -/
theorem C7_coloured_name_witness :
    TaskAdmin.coloured_name { task0 with name := "m" } = greenSpan "m" ∧
    TaskAdmin.coloured_name { task0 with task := some 1, name := "s" } = marginSpan "s" :=
  ⟨(C7_coloured_name { task0 with name := "m" }).1 rfl,
   (C7_coloured_name { task0 with task := some 1, name := "s" }).2.1 1 rfl⟩

/-- C10: `TaskBaseForm.clean_name` raises "Please specify a name" exactly when the
submitted name is missing, empty, or equal to the configured placeholder
`settings.NO_NAME_STR`; every other name is returned unchanged. -/
theorem C10_clean_name (noNameStr : String) (form : TaskForm) :
    (TaskBaseForm.clean_name noNameStr form = .error ⟨"name", noNameMsg⟩ ↔
      (form.name = none ∨ form.name = some "" ∨ form.name = some noNameStr)) ∧
    (∀ n, form.name = some n → n ≠ "" → n ≠ noNameStr →
      TaskBaseForm.clean_name noNameStr form = .ok n) := by
  unfold TaskBaseForm.clean_name
  cases h : form.name with
  | none => simp
  | some n =>
    constructor
    · by_cases h1 : n = ""
      · subst h1; simp
      · by_cases h2 : n = noNameStr
        · subst h2; simp
        · simp [h1, h2]
    · intro n2 hn2 hne hns
      cases hn2
      simp [hne, hns]

/-- C10 witness: the theorem applied at a concrete placeholder and form. -/
theorem C10_clean_name_witness :
    TaskBaseForm.clean_name "Untitled" form0 = .ok "n" :=
  (C10_clean_name "Untitled" form0).2 "n" rfl (by decide) (by decide)

/-- C8 counterexample to "lead_time is never null or falsy": saving a task whose
lead_time is NULL stores the zero duration, and the zero duration is itself falsy
(zero-equivalent), so after `Task.save` the lead_time can still be falsy. -/
theorem C8_counterexample :
    ({ task0 with lead_time := none } : Task).lead_time = none ∧
    (Task.save { task0 with lead_time := none }).lead_time = some 0 ∧
    durationFalsy (Task.save { task0 with lead_time := none }).lead_time = true :=
  ⟨rfl, rfl, rfl⟩

/-- C8 (amended): after `Task.save`, if the task has a stage then the task's `active`
flag equals that stage's `active` flag, and `lead_time` is never null: a missing or
zero-equivalent lead_time is replaced with the zero duration (which is still
zero-equivalent), any other lead_time is kept. -/
theorem C8_save_invariant (t : Task) :
    (∀ s, (Task.save t).stage = some s → (Task.save t).active = s.active) ∧
    (Task.save t).lead_time ≠ none ∧
    (durationFalsy t.lead_time = true → (Task.save t).lead_time = some 0) ∧
    (durationFalsy t.lead_time = false → (Task.save t).lead_time = t.lead_time) := by
  have hlead : (Task.saveActiveStep t).lead_time = t.lead_time :=
    (saveActiveStep_fields t).2.2.2.2.2.2.2.2.1
  refine ⟨?_, ?_, ?_, ?_⟩
  · intro s hs
    have hstage : (Task.save t).stage = t.stage := (save_fields t).2.2.1
    rw [hstage] at hs
    have hact : (Task.saveActiveStep t).active = s.active := by
      unfold Task.saveActiveStep
      rw [hs]
    have : (Task.save t).active = (Task.saveActiveStep t).active :=
      (saveLeadStep_fields (Task.saveActiveStep t)).2.2.2.2.2.2.2.2
    rw [this, hact]
  · unfold Task.save Task.saveLeadStep
    rw [hlead]
    split <;> simp_all [durationFalsy]
    cases h : t.lead_time <;> simp_all
  · intro hf
    unfold Task.save Task.saveLeadStep
    rw [hlead, hf]
    simp
  · intro hf
    unfold Task.save Task.saveLeadStep
    rw [hlead, hf]
    simpa using hlead

/-- C8 witness: the theorem applied to a concrete task with a stage and a nonzero
lead_time. -/
theorem C8_save_invariant_witness :
    (Task.save { task0 with stage := some ⟨true, false, true, false⟩, lead_time := some 60 }).active =
      (⟨true, false, true, false⟩ : TaskStage).active ∧
    (Task.save { task0 with stage := some ⟨true, false, true, false⟩, lead_time := some 60 }).lead_time =
      some 60 :=
  ⟨(C8_save_invariant _).1 ⟨true, false, true, false⟩ rfl,
   (C8_save_invariant { task0 with stage := some ⟨true, false, true, false⟩, lead_time := some 60 }).2.2.2 rfl⟩

/-- An active stage with the `default` flag, for concrete examples. -/
def stDefault : TaskStage := ⟨true, false, true, false⟩

/-- An active stage with the `in_progress` flag, for concrete examples. -/
def stInProgress : TaskStage := ⟨true, false, false, true⟩

/-- An inactive stage with the `done` flag, for concrete examples. -/
def stDone : TaskStage := ⟨false, true, false, false⟩

/-- An inactive stage with no flag set (closed but not done), for concrete examples. -/
def stClosedNotDone : TaskStage := ⟨false, false, false, false⟩

/-- C2: for every saved task (nonzero id) with no parent task and an inactive stage,
`Task.clean` raises the ValidationError on the `stage` field exactly when some
sub-task of it has an active stage; with no id, a parent task, no stage, or an
active stage it raises no error. -/
theorem C2_closing_guard (db : DB) (t : Task) :
    (∀ i s, t.id = some i → 0 < i → t.task = none → t.stage = some s → s.active = false →
      (Task.clean db t = some ⟨"stage", cannotCloseMsg⟩ ↔
        ∃ u ∈ db.tasks, u.task = some i ∧ subtaskStageActive u = true)) ∧
    (t.id = none → Task.clean db t = none) ∧
    (∀ p, t.task = some p → Task.clean db t = none) ∧
    (t.stage = none → Task.clean db t = none) ∧
    (∀ s, t.stage = some s → s.active = true → Task.clean db t = none) := by
  refine ⟨?_, ?_, ?_, ?_, ?_⟩
  · intro i s hid hpos hpar hst hact
    have hi : i ≠ 0 := Nat.pos_iff_ne_zero.mp hpos
    unfold Task.clean
    rw [hid, hpar, hst]
    simp [optIdTruthy, hi, hact, List.any_eq_true]
  · intro hid
    unfold Task.clean
    rw [hid]
    simp [optIdTruthy]
  · intro p hpar
    unfold Task.clean
    rw [hpar]
    simp
  · intro hst
    unfold Task.clean
    rw [hst]
    simp
  · intro s hst hact
    unfold Task.clean
    rw [hst]
    simp [hact]

/-- A main task with an inactive stage, for the C2 witness. -/
def c2main : Task := { task0 with id := some 1, stage := some stClosedNotDone }

/-- An active sub-task of `c2main`, for the C2 witness. -/
def c2sub : Task := { task0 with id := some 2, task := some 1, stage := some stInProgress }

/-- The database of the C2 witness. -/
def c2db : DB := ⟨[c2main, c2sub], [stDefault, stDone], []⟩

/-- C2 witness: closing a concrete main task with an active sub-task raises the
error. -/
theorem C2_closing_guard_witness :
    Task.clean c2db c2main = some ⟨"stage", cannotCloseMsg⟩ :=
  ((C2_closing_guard c2db c2main).1 1 stClosedNotDone rfl (by decide) rfl rfl rfl).mpr
    ⟨c2sub, by decide, rfl, rfl⟩

/-- C5: `copy_files_to_maintask` extends the main task's files by a copy of exactly
those files of the sub-task whose underlying file is not already among the main
task's files; files of other tasks, the task table and the stage table are
untouched, and a task without a parent task changes nothing. -/
theorem C5_copy_files (db : DB) (self : Task) :
    (self.task = none → Task.copy_files_to_maintask db self = db) ∧
    (∀ mid, self.task = some mid →
      (task_files (Task.copy_files_to_maintask db self) mid =
        task_files db mid ++
          ((db.files.filter (fun f => some f.task_id == self.id)).filter
            (fun f => !(((task_files db mid).map (fun f => f.file)).contains f.file))).map
            (fun f => ⟨f.file, mid⟩)) ∧
      (∀ k, k ≠ mid → task_files (Task.copy_files_to_maintask db self) k = task_files db k) ∧
      (Task.copy_files_to_maintask db self).tasks = db.tasks ∧
      (Task.copy_files_to_maintask db self).stages = db.stages) := by
  constructor
  · intro h
    unfold Task.copy_files_to_maintask
    rw [h]
  · intro mid h
    unfold Task.copy_files_to_maintask
    rw [h]
    refine ⟨?_, ?_, rfl, rfl⟩
    · show ((db.files ++ _).filter _) = _
      rw [List.filter_append]
      congr 1
      apply List.filter_eq_self.mpr
      intro a ha
      obtain ⟨f, _, rfl⟩ := List.mem_map.mp ha
      simp
    · intro k hk
      show ((db.files ++ _).filter _) = _
      rw [List.filter_append]
      have hnil : (((db.files.filter (fun f => some f.task_id == self.id)).filter
          (fun f => !(((task_files db mid).map (fun f => f.file)).contains f.file))).map
          (fun f => (⟨f.file, mid⟩ : TheFile))).filter (fun f => f.task_id == k) = [] := by
        apply List.filter_eq_nil_iff.mpr
        intro a ha
        obtain ⟨f, _, rfl⟩ := List.mem_map.mp ha
        simp [Ne.symm hk]
      rw [hnil, List.append_nil]
      rfl

/-- The main task of the C5 witness, owner of file `a.pdf`. -/
def c5main : Task := { task0 with id := some 1 }

/-- The sub-task of the C5 witness, owner of files `a.pdf` and `b.pdf`. -/
def c5sub : Task := { task0 with id := some 2, task := some 1 }

/-- The database of the C5 witness. -/
def c5db : DB := ⟨[c5main, c5sub], [], [⟨"a.pdf", 1⟩, ⟨"a.pdf", 2⟩, ⟨"b.pdf", 2⟩]⟩

/-- C5 witness: the theorem applied to a concrete sub-task and the resulting file
list evaluated: only `b.pdf` is copied to the main task. -/
theorem C5_copy_files_witness :
    task_files (Task.copy_files_to_maintask c5db c5sub) 1 =
      task_files c5db 1 ++
        ((c5db.files.filter (fun f => some f.task_id == c5sub.id)).filter
          (fun f => !(((task_files c5db 1).map (fun f => f.file)).contains f.file))).map
          (fun f => ⟨f.file, 1⟩) ∧
    task_files (Task.copy_files_to_maintask c5db c5sub) 1 = [⟨"a.pdf", 1⟩, ⟨"b.pdf", 1⟩] :=
  ⟨((C5_copy_files c5db c5sub).2 1 rfl).1, by decide⟩

/-- C4: `save_related` for a sub-task whose stage is `in_progress` while the main
task's stage is `default` replaces the main task's stage with the sub-task's stage
and saves the main task; when either flag fails the cascade leaves the database
unchanged. -/
theorem C4_upward_cascade (db : DB) (obj main : Task) (mid : Nat) (ms os : TaskStage)
    (hpar : obj.task = some mid) (hget : getTask db mid = some main)
    (hms : main.stage = some ms) (hos : obj.stage = some os) :
    (ms.default = true → os.in_progress = true →
      save_related_cascade db obj = db.saveRow (Task.save { main with stage := some os }) ∧
      getTask (save_related_cascade db obj) mid = some (Task.save { main with stage := some os }) ∧
      (Task.save { main with stage := some os }).stage = some os) ∧
    ((ms.default = false ∨ os.in_progress = false) → save_related_cascade db obj = db) := by
  constructor
  · intro hd hp
    have heq : save_related_cascade db obj = db.saveRow (Task.save { main with stage := some os }) := by
      simp [save_related_cascade, hpar, hget, hms, hos, hd, hp]
    have hid2 : (Task.save { main with stage := some os }).id = some mid := by
      rw [(save_fields ({ main with stage := some os } : Task)).1]
      show main.id = some mid
      exact getTask_id hget
    refine ⟨heq, ?_, (save_fields ({ main with stage := some os } : Task)).2.2.1⟩
    rw [heq]
    exact getTask_saveRow _ hget hid2
  · intro hor
    have hcond : (ms.default && os.in_progress) = false := by
      rcases hor with h | h <;> simp [h]
    simp [save_related_cascade, hpar, hget, hms, hos, hcond]

/-- The main task of the C4 witness, in the default stage. -/
def c4main : Task := { task0 with id := some 1, stage := some stDefault }

/-- The sub-task of the C4 witness, in an in-progress stage. -/
def c4obj : Task := { task0 with id := some 2, task := some 1, stage := some stInProgress }

/-- The database of the C4 witness. -/
def c4db : DB := ⟨[c4main, c4obj], [stDefault, stDone], []⟩

/-- C4 witness: the theorem applied to a concrete sub-task save; the main task ends
up saved with the in-progress stage. -/
theorem C4_upward_cascade_witness :
    getTask (save_related_cascade c4db c4obj) 1 =
      some (Task.save { c4main with stage := some stInProgress }) ∧
    (Task.save { c4main with stage := some stInProgress }).stage = some stInProgress :=
  ⟨((C4_upward_cascade c4db c4obj c4main 1 stDefault stInProgress rfl rfl rfl rfl).1 rfl rfl).2.1,
   ((C4_upward_cascade c4db c4obj c4main 1 stDefault stInProgress rfl rfl rfl rfl).1 rfl rfl).2.2⟩

/-- C1 (amended): a main task in a default or in-progress stage auto-closes, when
`check_and_deacte_main_task` is called on one of its sub-tasks and no sub-task is
active, provided additionally that the set of the main task's responsible users
equals the set of users responsible for its done (stage `done=True`, inactive)
sub-tasks and the stage table holds a stage with `done=True`: the main task is saved
with the first such done stage, next_step "Done", and next_step_date and
closing_date set to today. -/
theorem C1_auto_close (db : DB) (today mid : Nat) (self main : Task) (mstage ds : TaskStage)
    (hpar : self.task = some mid)
    (hget : getTask db mid = some main)
    (hstage : main.stage = some mstage)
    (hflag : (mstage.default || mstage.in_progress) = true)
    (hnoactive : (subtasksOf db mid).any (fun t => t.active) = false)
    (hresp : sameSet main.responsible (done_responsible db mid) = true)
    (hds : (db.stages.filter (fun s => s.done)).head? = some ds) :
    ∃ main2, getTask (Task.check_and_deacte_main_task db today self) mid = some main2 ∧
      main2.stage = some ds ∧ ds.done = true ∧ main2.next_step = "Done" ∧
      main2.next_step_date = some today ∧ main2.closing_date = some today := by
  have hdsdone : ds.done = true := by
    have hmem : ds ∈ db.stages.filter (fun s => s.done) :=
      List.mem_of_mem_head? (by rw [hds]; rfl)
    exact (List.mem_filter.mp hmem).2
  have hred : Task.check_and_deacte_main_task db today self =
      db.saveRow (Task.save
        { Task.add_to_workflow { main with stage := some ds }
            "The main task is closed automatically." with
          next_step := "Done", next_step_date := some today, closing_date := some today }) := by
    simp [Task.check_and_deacte_main_task, hpar, hget, hstage, hflag, hnoactive, hresp, hds,
      Task.add_to_workflow]
  set mt3 : Task :=
    { Task.add_to_workflow { main with stage := some ds }
        "The main task is closed automatically." with
      next_step := "Done", next_step_date := some today, closing_date := some today } with hmt3
  have hid2 : (Task.save mt3).id = some mid := by
    rw [(save_fields mt3).1]
    show main.id = some mid
    exact getTask_id hget
  refine ⟨Task.save mt3, ?_, ?_, hdsdone, ?_, ?_, ?_⟩
  · rw [hred]
    exact getTask_saveRow _ hget hid2
  · simp [save_stage, hmt3, Task.add_to_workflow]
  · simp [save_next_step, hmt3, Task.add_to_workflow]
  · simp [save_next_step_date, hmt3, Task.add_to_workflow]
  · simp [save_closing_date, hmt3, Task.add_to_workflow]

/-- The main task of the C1 examples: default stage, one responsible user. -/
def c1main : Task := { task0 with id := some 1, stage := some stDefault, responsible := [10] }

/-- A closed but not done sub-task of `c1main`, for the C1 counterexample. -/
def c1sub : Task :=
  { task0 with
      id := some 2, task := some 1, stage := some stClosedNotDone,
      active := false, responsible := [10] }

/-- The database of the C1 counterexample. -/
def c1db : DB := ⟨[c1main, c1sub], [stDefault, stDone], []⟩

/-- C1 counterexample: the main task is in the default stage and none of its
sub-tasks is active, yet `check_and_deacte_main_task` on the sub-task does not close
it, because the sub-task is inactive without being done, so the responsible sets
differ (the claim omits the responsible-set condition of the code). -/
theorem C1_counterexample :
    c1sub.task = some 1 ∧
    (getTask c1db 1).map Task.stage = some (some stDefault) ∧
    (stDefault.default || stDefault.in_progress) = true ∧
    (subtasksOf c1db 1).any (fun t => t.active) = false ∧
    (c1db.stages.filter (fun s => s.done)).head? = some stDone ∧
    Task.check_and_deacte_main_task c1db 100 c1sub = c1db ∧
    (getTask (Task.check_and_deacte_main_task c1db 100 c1sub) 1).map Task.next_step ≠
      some "Done" := by
  decide

/-- A done, inactive sub-task of `c1main`, for the C1 witness. -/
def c1sub2 : Task :=
  { task0 with
      id := some 2, task := some 1, stage := some stDone,
      active := false, responsible := [10] }

/-- The database of the C1 witness. -/
def c1db2 : DB := ⟨[c1main, c1sub2], [stDefault, stDone], []⟩

/-- C1 witness: with the responsible sets matching and a done stage present, the
concrete main task is auto-closed. -/
theorem C1_auto_close_witness :
    ∃ main2, getTask (Task.check_and_deacte_main_task c1db2 100 c1sub2) 1 = some main2 ∧
      main2.stage = some stDone ∧ stDone.done = true ∧ main2.next_step = "Done" ∧
      main2.next_step_date = some 100 ∧ main2.closing_date = some 100 :=
  C1_auto_close c1db2 100 1 c1sub2 c1main stDefault stDone rfl (by decide) (by decide)
    (by decide) (by decide) (by decide) (by decide)

theorem clean_next_step_date_some {today : Nat} {form : TaskForm} {e : VError}
    (h : clean_next_step_date today form = some e) : e = ⟨"next_step_date", pastDateMsg⟩ := by
  unfold clean_next_step_date at h
  split at h
  · split at h
    · split at h
      · injection h with h
        exact h.symm
      · exact absurd h (by simp)
    · exact absurd h (by simp)
  · exact absurd h (by simp)

theorem due_date_check_some {today : Nat} {form : TaskForm} {e : VError}
    (h : due_date_check today form = some e) : e = ⟨"due_date", pastDateMsg⟩ := by
  unfold due_date_check at h
  split at h
  · split at h
    · split at h
      · injection h with h
        exact h.symm
      · exact absurd h (by simp)
    · exact absurd h (by simp)
  · exact absurd h (by simp)

/-- A form whose cleaned due_date is in the past but which did not change the
due_date field, for the C3 counterexample. -/
def c3form : TaskForm := { form0 with due_date := some 0 }

/-- C3 counterexample: with today = 5, a form whose cleaned due_date 0 is in the past
passes `TaskBaseForm.clean` without any error, because the due_date field is not in
`changed_data` (the claim omits the changed-field condition of the code). -/
theorem C3_counterexample :
    c3form.due_date = some 0 ∧ (0 : Nat) < 5 ∧
    TaskBaseForm.clean 5 c3form = .ok c3form :=
  ⟨rfl, by decide, rfl⟩

/-- C3 (amended): the past-date checks fire only for changed fields: when
next_step_date was changed (or remind_me was changed and is set) and the cleaned
next_step_date is present and earlier than today, clean raises the past-date error on
next_step_date; when that check passes, due_date was changed, and the cleaned
due_date is present and earlier than today, clean raises it on due_date; cleaned
dates on or after today never produce a past-date error. -/
theorem C3_past_date (today : Nat) (form : TaskForm) :
    (∀ d, (form.changed_data.contains "next_step_date" ||
        (form.changed_data.contains "remind_me" && form.remind_me)) = true →
      form.next_step_date = some d → d < today →
      TaskBaseForm.clean today form = .error ⟨"next_step_date", pastDateMsg⟩) ∧
    (∀ d, clean_next_step_date today form = none →
      form.changed_data.contains "due_date" = true →
      form.due_date = some d → d < today →
      TaskBaseForm.clean today form = .error ⟨"due_date", pastDateMsg⟩) ∧
    ((∀ d, form.next_step_date = some d → today ≤ d) →
     (∀ d, form.due_date = some d → today ≤ d) →
      ∀ e, TaskBaseForm.clean today form = .error e →
        e.field ≠ "next_step_date" ∧ e.field ≠ "due_date") := by
  refine ⟨?_, ?_, ?_⟩
  · intro d hchg hnsd hlt
    have hn : clean_next_step_date today form = some ⟨"next_step_date", pastDateMsg⟩ := by
      unfold clean_next_step_date
      rw [hchg, hnsd]
      simp [hlt]
    unfold TaskBaseForm.clean
    rw [hn]
  · intro d hn hchg hdue hlt
    have hd : due_date_check today form = some ⟨"due_date", pastDateMsg⟩ := by
      unfold due_date_check
      rw [hchg, hdue]
      simp [hlt]
    unfold TaskBaseForm.clean
    rw [hn, hd]
  · intro h1 h2 e he
    have hn : clean_next_step_date today form = none := by
      unfold clean_next_step_date
      split
      · cases hd : form.next_step_date with
        | none => rfl
        | some d => simp [Nat.not_lt.mpr (h1 d hd)]
      · rfl
    have hd : due_date_check today form = none := by
      unfold due_date_check
      split
      · cases hdd : form.due_date with
        | none => rfl
        | some d => simp [Nat.not_lt.mpr (h2 d hdd)]
      · rfl
    unfold TaskBaseForm.clean at he
    rw [hn, hd] at he
    dsimp only at he
    split at he
    · split at he
      · injection he with he
        subst he
        exact ⟨by decide, by decide⟩
      · exact absurd he (by simp)
    · exact absurd he (by simp)

/-- A form with a changed, past next_step_date, for the C3 witness. -/
def c3form2 : TaskForm :=
  { form0 with next_step_date := some 0, changed_data := ["next_step_date"] }

/-- C3 witness: the amended theorem applied at today = 5 to a form whose changed
next_step_date is in the past. -/
theorem C3_past_date_witness :
    TaskBaseForm.clean 5 c3form2 = .error ⟨"next_step_date", pastDateMsg⟩ :=
  (C3_past_date 5 c3form2).1 0 (by decide) rfl (by decide)

/-- A form with a changed multi-user responsible set on a sub-task, and also a
changed past next_step_date, for the C9 counterexample. -/
def c9form : TaskForm :=
  { form0 with
      responsible := [1, 2], task := some 1, next_step_date := some 0,
      changed_data := ["responsible", "next_step_date"] }

/-- C9 counterexample: the responsible field was changed, a parent task is set and
two responsible users are selected, yet `clean` raises the past-date error on
next_step_date, not the single-responsible error (the claim omits that an earlier
date check can raise first). -/
theorem C9_counterexample :
    c9form.changed_data.contains "responsible" = true ∧ c9form.task.isSome = true ∧
    c9form.responsible.length > 1 ∧
    TaskBaseForm.clean 5 c9form = .error ⟨"next_step_date", pastDateMsg⟩ :=
  ⟨rfl, rfl, by decide, rfl⟩

/-- C9 (amended): provided the date validations raise nothing, a changed responsible
field on a form with a parent task and more than one selected responsible makes
`clean` raise ONE_RESPONSIBLE_MSG on responsible; with at most one responsible or no
parent task the responsible error is never raised. -/
theorem C9_single_responsible (today : Nat) (form : TaskForm) :
    (clean_next_step_date today form = none → due_date_check today form = none →
      form.changed_data.contains "responsible" = true → form.task.isSome = true →
      form.responsible.length > 1 →
      TaskBaseForm.clean today form = .error ⟨"responsible", ONE_RESPONSIBLE_MSG⟩) ∧
    ((form.responsible.length ≤ 1 ∨ form.task = none) →
      ∀ e, TaskBaseForm.clean today form = .error e → e.field ≠ "responsible") := by
  constructor
  · intro hn hd hchg htask hlen
    have hne : form.responsible.isEmpty = false := by
      cases hr : form.responsible with
      | nil => rw [hr] at hlen; simp at hlen
      | cons a l => simp
    have hchg2 : "responsible" ∈ form.changed_data := by simpa using hchg
    have hne2 : form.responsible ≠ [] := by
      intro h
      rw [h] at hlen
      simp at hlen
    unfold TaskBaseForm.clean
    rw [hn, hd]
    simp [hchg2, htask, hne2, hlen]
  · intro hor e he
    unfold TaskBaseForm.clean at he
    cases hn : clean_next_step_date today form with
    | some err =>
      rw [hn] at he
      dsimp only at he
      injection he with he
      subst he
      rw [clean_next_step_date_some hn]
      decide
    | none =>
      rw [hn] at he
      dsimp only at he
      cases hd : due_date_check today form with
      | some err =>
        rw [hd] at he
        dsimp only at he
        injection he with he
        subst he
        rw [due_date_check_some hd]
        decide
      | none =>
        rw [hd] at he
        dsimp only at he
        rcases hor with hlen | htask
        · split at he
          · split at he
            · next hgt => omega
            · exact absurd he (by simp)
          · exact absurd he (by simp)
        · rw [htask] at he
          simp at he

/-- A form with a changed two-user responsible set on a sub-task and no date issues,
for the C9 witness. -/
def c9form2 : TaskForm :=
  { form0 with responsible := [1, 2], task := some 1, changed_data := ["responsible"] }

/-- C9 witness: the amended theorem applied to a concrete form; the
single-responsible error is raised. -/
theorem C9_single_responsible_witness :
    TaskBaseForm.clean 5 c9form2 = .error ⟨"responsible", ONE_RESPONSIBLE_MSG⟩ :=
  (C9_single_responsible 5 c9form2).1 rfl rfl rfl rfl (by decide)

/-! ### Order lemmas for the changelist sort key -/

theorem optLe_refl (a : Option Nat) : optLe a a = true := by
  cases a <;> simp [optLe]

theorem optLe_total (a b : Option Nat) : optLe a b = true ∨ optLe b a = true := by
  cases a <;> cases b <;> simp [optLe]
  exact Nat.le_total _ _

theorem optLe_trans {a b c : Option Nat} (h1 : optLe a b = true) (h2 : optLe b c = true) :
    optLe a c = true := by
  cases a <;> cases b <;> cases c <;> simp_all [optLe] <;> omega

theorem optLe_antisymm {a b : Option Nat} (h1 : optLe a b = true) (h2 : optLe b a = true) :
    a = b := by
  cases a <;> cases b <;> simp_all [optLe] <;> omega

theorem optLt_le {a b : Option Nat} (h : optLt a b = true) : optLe a b = true := by
  rcases optLe_total a b with h1 | h1
  · exact h1
  · unfold optLt at h
    rw [h1] at h
    simp at h

theorem optLt_trans {a b c : Option Nat} (h1 : optLt a b = true) (h2 : optLt b c = true) :
    optLt a c = true := by
  unfold optLt at *
  simp only [Bool.not_eq_true'] at h1 h2 ⊢
  cases hca : optLe c a with
  | false => rfl
  | true =>
    have hab : optLe a b = true := by
      rcases optLe_total a b with h' | h'
      · exact h'
      · rw [h'] at h1
        cases h1
    have hcb := optLe_trans hca hab
    rw [hcb] at h2
    cases h2

theorem opt_trichotomy (a b : Option Nat) :
    optLt a b = true ∨ optLt b a = true ∨ a = b := by
  rcases optLe_total a b with h | h
  · cases hba : optLe b a with
    | false =>
      left
      unfold optLt
      rw [hba]
      rfl
    | true => exact Or.inr (Or.inr (optLe_antisymm h hba))
  · cases hab : optLe a b with
    | false =>
      right
      left
      unfold optLt
      rw [hab]
      rfl
    | true => exact Or.inr (Or.inr (optLe_antisymm hab h))

theorem keyLe_iff (a b : AnnotatedTask) :
    keyLe a b = true ↔
      optLt a.parent_id b.parent_id = true ∨
        (a.parent_id = b.parent_id ∧
          (optLt a.step_date b.step_date = true ∨
            (a.step_date = b.step_date ∧ optLe a.task.id b.task.id = true))) := by
  unfold keyLe
  simp [Bool.or_eq_true, Bool.and_eq_true, beq_iff_eq]

theorem keyLe_total (a b : AnnotatedTask) : (keyLe a b || keyLe b a) = true := by
  rw [Bool.or_eq_true, keyLe_iff, keyLe_iff]
  rcases opt_trichotomy a.parent_id b.parent_id with h | h | h
  · exact Or.inl (Or.inl h)
  · exact Or.inr (Or.inl h)
  · rcases opt_trichotomy a.step_date b.step_date with h2 | h2 | h2
    · exact Or.inl (Or.inr ⟨h, Or.inl h2⟩)
    · exact Or.inr (Or.inr ⟨h.symm, Or.inl h2⟩)
    · rcases optLe_total a.task.id b.task.id with h3 | h3
      · exact Or.inl (Or.inr ⟨h, Or.inr ⟨h2, h3⟩⟩)
      · exact Or.inr (Or.inr ⟨h.symm, Or.inr ⟨h2.symm, h3⟩⟩)

theorem keyLe_trans (a b c : AnnotatedTask) (h1 : keyLe a b = true) (h2 : keyLe b c = true) :
    keyLe a c = true := by
  rw [keyLe_iff] at h1 h2 ⊢
  rcases h1 with h1 | ⟨hp1, h1⟩
  · rcases h2 with h2 | ⟨hp2, h2⟩
    · exact Or.inl (optLt_trans h1 h2)
    · rw [hp2] at h1
      exact Or.inl h1
  · rcases h2 with h2 | ⟨hp2, h2⟩
    · rw [hp1]
      exact Or.inl h2
    · refine Or.inr ⟨hp1.trans hp2, ?_⟩
      rcases h1 with h1 | ⟨hs1, h1⟩
      · rcases h2 with h2 | ⟨hs2, h2⟩
        · exact Or.inl (optLt_trans h1 h2)
        · rw [hs2] at h1
          exact Or.inl h1
      · rcases h2 with h2 | ⟨hs2, h2⟩
        · rw [hs1]
          exact Or.inl h2
        · exact Or.inr ⟨hs1.trans hs2, optLe_trans h1 h2⟩

theorem keyLe_parent {a b : AnnotatedTask} (h : keyLe a b = true) :
    optLe a.parent_id b.parent_id = true := by
  rw [keyLe_iff] at h
  rcases h with h | ⟨hp, _⟩
  · exact optLt_le h
  · rw [hp]
    exact optLe_refl _

/-- C6: `TaskAdmin.get_queryset` returns the task table with each row annotated with
`step_date` (the least of the parent's next_step_date, falling back to the row's own
when the parent's is null, and the row's own) and `parent_id` (the parent's id for a
sub-task, the row's own id otherwise), ordered by `(parent_id, step_date, id)`; rows
with equal `parent_id` are therefore contiguous, so each main task is grouped
together with its sub-tasks. -/
theorem C6_get_queryset (db : DB) :
    (TaskAdmin.get_queryset db).Perm (db.tasks.map (annotate db)) ∧
    List.Sorted (fun a b => keyLe a b = true) (TaskAdmin.get_queryset db) ∧
    (∀ a ∈ TaskAdmin.get_queryset db,
      a.step_date = least2 (coalesce (parentNextStepDate db a.task) a.task.next_step_date)
        a.task.next_step_date ∧
      (∀ mid, a.task.task = some mid → a.parent_id = some mid) ∧
      (a.task.task = none → a.parent_id = a.task.id)) ∧
    (∀ i j k : Fin (TaskAdmin.get_queryset db).length, i < j → j < k →
      ((TaskAdmin.get_queryset db).get i).parent_id =
        ((TaskAdmin.get_queryset db).get k).parent_id →
      ((TaskAdmin.get_queryset db).get j).parent_id =
        ((TaskAdmin.get_queryset db).get i).parent_id) := by
  have hperm : (TaskAdmin.get_queryset db).Perm (db.tasks.map (annotate db)) :=
    List.mergeSort_perm _ _
  have hsorted : List.Sorted (fun a b => keyLe a b = true) (TaskAdmin.get_queryset db) :=
    List.sorted_mergeSort keyLe_trans keyLe_total _
  refine ⟨hperm, hsorted, ?_, ?_⟩
  · intro a ha
    obtain ⟨t, _, rfl⟩ := List.mem_map.mp (hperm.mem_iff.mp ha)
    refine ⟨rfl, ?_, ?_⟩
    · intro mid hm
      show coalesce t.task t.id = some mid
      have ht : t.task = some mid := hm
      rw [ht]
      rfl
    · intro hm
      show coalesce t.task t.id = t.id
      have ht : t.task = none := hm
      rw [ht]
      rfl
  · intro i j k hij hjk hik
    have p1 := keyLe_parent (hsorted.rel_get_of_lt hij)
    have p2 := keyLe_parent (hsorted.rel_get_of_lt hjk)
    rw [← hik] at p2
    exact optLe_antisymm p2 p1

/-- C6 witness: the theorem applied to a concrete database; the sub-task is
annotated with its parent's id and the main task with its own. -/
theorem C6_get_queryset_witness :
    (annotate c1db c1sub).parent_id = some 1 ∧
    (annotate c1db c1main).parent_id = c1main.id :=
  ⟨((C6_get_queryset c1db).2.2.1 (annotate c1db c1sub)
      ((C6_get_queryset c1db).1.mem_iff.mpr (by decide))).2.1 1 rfl,
   ((C6_get_queryset c1db).2.2.1 (annotate c1db c1main)
      ((C6_get_queryset c1db).1.mem_iff.mpr (by decide))).2.2 rfl⟩

end CRM
